import Mathlib

/-!
Shallow embedding of the session-lifecycle manager and resilient call layer
of the `ubereats_mcp_server` repository.

Modelling conventions:
* Timestamps are milliseconds since the epoch, as `Int` (JS `Date.getTime()`).
* JS objects used as string-keyed maps (`cookies`, `tokens`, `sessionStorage`,
  `localStorage`) are association lists where a later entry shadows an earlier
  one, so the JS spread `{...a, ...b}` is list append `a ++ b`.
* The Redis store is a pair of association lists: one record per session id
  (keys under the `session:` prefix) and one set of session ids per username
  (the owner index).  `SETEX`/`DEL`/`SADD`/`SREM`/`SMEMBERS`/`KEYS` are
  modelled explicitly; an `SREM` that empties a set removes the key, as Redis
  does.  Automatic TTL eviction by the Redis server is not part of the model:
  the service's own `expiresAt` checks are the semantics under study, and the
  code's read-time expiry branch exists precisely for records that are still
  present after their deadline.
* `getSession` and `deleteSession` are mutually recursive in the source
  (`getSession` deletes expired records through `deleteSession`, which
  re-reads through `getSession`), so they are embedded fuel-indexed; the
  `outOfFuel` result for every fuel witnesses non-termination.
* Fallible operations return an explicit result value instead of throwing.
-/

namespace UberEatsMcp

/-- Session lifecycle states (`SessionStatus` in `types/session.ts`). -/
inductive SessionStatus
  | active
  | manualLoginPending
  | expired
  | invalid
deriving DecidableEq, Repr

/-- A JS object used as a string-keyed map; later entries shadow earlier ones. -/
abbrev ObjMap := List (String × String)

/-- Property lookup on an `ObjMap`: the last binding for the key wins,
matching JS object update/spread semantics. -/
def objGet (m : ObjMap) (k : String) : Option String :=
  m.foldl (fun acc kv => if kv.1 = k then some kv.2 else acc) none

/-- `SessionData` from `types/session.ts`.  The `tokens` record (three optional
string fields in the source) is modelled as an `ObjMap` like the other carried
maps, since the source only stores it and spread-merges it key-by-key.
`storageState` and `metadata` are opaque payloads. -/
structure SessionData where
  id : String
  username : String
  status : SessionStatus
  createdAt : Int
  updatedAt : Int
  expiresAt : Int
  loginCompletedAt : Option Int
  cookies : ObjMap
  tokens : ObjMap
  sessionStorage : ObjMap
  localStorage : ObjMap
  storageState : Option String
  metadata : Option String
deriving DecidableEq, Repr

/-- First-match association-list lookup (Redis keys are unique). -/
def assocGet {α : Type} (l : List (String × α)) (k : String) : Option α :=
  match l with
  | [] => none
  | (k1, v) :: rest => if k1 = k then some v else assocGet rest k

/-- Remove every binding for a key. -/
def eraseKey {α : Type} (l : List (String × α)) (k : String) : List (String × α) :=
  match l with
  | [] => []
  | (k1, v) :: rest =>
      if k1 = k then eraseKey rest k else (k1, v) :: eraseKey rest k

/-- The Redis store: serialized session records keyed by session id, and the
per-user owner index (a Redis set of session ids per username). -/
structure Store where
  records : List (String × SessionData)
  userIndex : List (String × List String)
deriving DecidableEq, Repr

/-- `redis.get(keyPrefix + sessionId)` -/
def Store.getR (st : Store) (sessionId : String) : Option SessionData :=
  assocGet st.records sessionId

/-- `redis.setex(keyPrefix + sessionId, ttl, JSON.stringify(session))` (the
recorded TTL itself is not re-read by the service, so it is not stored). -/
def Store.setex (st : Store) (sessionId : String) (s : SessionData) : Store :=
  ⟨(sessionId, s) :: eraseKey st.records sessionId, st.userIndex⟩

/-- `redis.del(keyPrefix + sessionId)` -/
def Store.del (st : Store) (sessionId : String) : Store :=
  ⟨eraseKey st.records sessionId, st.userIndex⟩

/-- `redis.sadd(user:<username>:sessions, sessionId)` -/
def Store.sadd (st : Store) (username sessionId : String) : Store :=
  match assocGet st.userIndex username with
  | some ids =>
      if sessionId ∈ ids then st
      else ⟨st.records, (username, ids ++ [sessionId]) :: eraseKey st.userIndex username⟩
  | none => ⟨st.records, (username, [sessionId]) :: eraseKey st.userIndex username⟩

/-- `redis.srem(user:<username>:sessions, sessionId)`; removing the last member
removes the set key, as in Redis. -/
def Store.srem (st : Store) (username sessionId : String) : Store :=
  match assocGet st.userIndex username with
  | some ids =>
      let ids1 := ids.filter (fun i => i ≠ sessionId)
      if ids1 = [] then ⟨st.records, eraseKey st.userIndex username⟩
      else ⟨st.records, (username, ids1) :: eraseKey st.userIndex username⟩
  | none => st

/-- `redis.smembers(user:<username>:sessions)` -/
def Store.smembers (st : Store) (username : String) : List String :=
  (assocGet st.userIndex username).getD []

/-- `getActiveSessionCount`: `redis.keys(keyPrefix + '*').length`, i.e. the
number of stored session records. -/
def Store.getActiveSessionCount (st : Store) : Nat :=
  st.records.length

/-- Typed errors thrown by the session service (`errorHandler.ts`). -/
inductive SessionError
  | notFound            -- NotFoundError('Session')
  | sessionExpired      -- AuthenticationError('Session expired')
  | maxSessionsExceeded -- AppError(..., 'MAX_SESSIONS_EXCEEDED')
deriving DecidableEq, Repr

/-- Result of a fuel-indexed service operation: a value, a thrown typed error,
or fuel exhaustion (the marker for non-terminating source executions). -/
inductive Res (α : Type)
  | ok (a : α)
  | err (e : SessionError)
  | outOfFuel
deriving DecidableEq, Repr

mutual

/-- `SessionService.getSession`.  Absent key → `NotFoundError`.  Present but
past `expiresAt` → the source awaits `this.deleteSession(sessionId)` and then
throws `AuthenticationError('Session expired')`; an error thrown by the delete
propagates instead.  Fuel-indexed because of the mutual recursion with
`deleteSessionF`. -/
def getSessionF : Nat → Store → String → Int → Store × Res SessionData
  | 0, st, _, _ => (st, .outOfFuel)
  | fuel + 1, st, sessionId, now =>
    match st.getR sessionId with
    | none => (st, .err .notFound)
    | some session =>
      if session.expiresAt < now then
        match deleteSessionF fuel st sessionId now with
        | (st1, .ok _) => (st1, .err .sessionExpired)
        | (st1, .err e) => (st1, .err e)
        | (st1, .outOfFuel) => (st1, .outOfFuel)
      else (st, .ok session)

/-- `SessionService.deleteSession`.  Re-reads the record through
`this.getSession(sessionId)` to learn the username, deletes the record, prunes
the owner index; a `NotFoundError` from the inner read is swallowed, any other
error is rethrown. -/
def deleteSessionF : Nat → Store → String → Int → Store × Res Unit
  | 0, st, _, _ => (st, .outOfFuel)
  | fuel + 1, st, sessionId, now =>
    match getSessionF fuel st sessionId now with
    | (st1, .ok session) =>
        (((st1.del sessionId).srem session.username sessionId), .ok ())
    | (st1, .err .notFound) => (st1, .ok ())
    | (st1, .err e) => (st1, .err e)
    | (st1, .outOfFuel) => (st1, .outOfFuel)

end

/-- `SessionUpdateOptions` from `types/session.ts`. -/
structure SessionUpdateOptions where
  status : Option SessionStatus
  cookies : Option ObjMap
  tokens : Option ObjMap
  sessionStorage : Option ObjMap
  localStorage : Option ObjMap
  storageState : Option String
  loginCompletedAt : Option Int
deriving DecidableEq, Repr

/-- The in-memory field mutation block of `SessionService.updateSession`:
`status` is replaced when supplied; the four carried maps are spread-merged
(`{...stored, ...supplied}`); `loginCompletedAt` is replaced when supplied;
`updatedAt` is set to the current time.  The source never copies
`updates.storageState` and never touches `expiresAt`, `createdAt`, `id`,
`username` or `metadata`. -/
def applyUpdates (session : SessionData) (u : SessionUpdateOptions) (now : Int) :
    SessionData :=
  { session with
    status := u.status.getD session.status
    cookies := match u.cookies with
      | some c => session.cookies ++ c
      | none => session.cookies
    tokens := match u.tokens with
      | some c => session.tokens ++ c
      | none => session.tokens
    sessionStorage := match u.sessionStorage with
      | some c => session.sessionStorage ++ c
      | none => session.sessionStorage
    localStorage := match u.localStorage with
      | some c => session.localStorage ++ c
      | none => session.localStorage
    loginCompletedAt := match u.loginCompletedAt with
      | some t => some t
      | none => session.loginCompletedAt
    updatedAt := now }

/-- `SessionService.updateSession`.  Reads through `getSession` (at `tRead`),
applies the updates, recomputes the remaining TTL
`Math.floor((expiresAt - Date.now()) / 1000)` (at `tWrite`) and rewrites the
record only when that TTL is positive; the merged session object is returned
either way. -/
def updateSessionF (fuel : Nat) (st : Store) (sessionId : String)
    (u : SessionUpdateOptions) (tRead tWrite : Int) : Store × Res SessionData :=
  match getSessionF fuel st sessionId tRead with
  | (st1, .ok session) =>
      let session1 := applyUpdates session u tWrite
      let ttl := Int.fdiv (session1.expiresAt - tWrite) 1000
      if 0 < ttl then (st1.setex sessionId session1, .ok session1)
      else (st1, .ok session1)
  | (st1, .err e) => (st1, .err e)
  | (st1, .outOfFuel) => (st1, .outOfFuel)

/-- `SessionCreateOptions` from `types/session.ts`. -/
structure SessionCreateOptions where
  username : String
  status : Option SessionStatus
  lifetimeMinutes : Option Int
  metadata : Option String
deriving DecidableEq, Repr

/-- The configurable part of `sessionConfig` (`config/environment.ts`):
`SESSION_LIFETIME_MINUTES` (default 60) and `MAX_SESSIONS` (default 100). -/
structure SessionConfig where
  lifetimeMinutes : Int
  maxSessions : Nat
deriving DecidableEq, Repr

/-- `options.lifetimeMinutes || sessionConfig.lifetimeMinutes` (JS `||`, so a
supplied 0 falls back to the default). -/
def lifetimeOf (opts : SessionCreateOptions) (cfg : SessionConfig) : Int :=
  match opts.lifetimeMinutes with
  | some m => if m = 0 then cfg.lifetimeMinutes else m
  | none => cfg.lifetimeMinutes

/-- The fresh record `createSession` builds: empty carried state,
`expiresAt = now + lifetime`, `status` defaulted to `ACTIVE`. -/
def newSessionRecord (cfg : SessionConfig) (opts : SessionCreateOptions)
    (now : Int) (newId : String) : SessionData :=
  { id := newId, username := opts.username,
    status := opts.status.getD .active,
    createdAt := now, updatedAt := now,
    expiresAt := now + lifetimeOf opts cfg * 60000,
    loginCompletedAt := none,
    cookies := [], tokens := [], sessionStorage := [], localStorage := [],
    storageState := none, metadata := opts.metadata }

/-- `SessionService.createSession`.  Builds the fresh record, rejects with
`MAX_SESSIONS_EXCEEDED` when the stored-session count has reached
`maxSessions` before writing anything, otherwise stores the record and
registers it in the owner index.  The fresh UUID is passed in as `newId`. -/
def createSession (cfg : SessionConfig) (st : Store) (opts : SessionCreateOptions)
    (now : Int) (newId : String) : Store × Res SessionData :=
  let session := newSessionRecord cfg opts now newId
  if cfg.maxSessions ≤ st.getActiveSessionCount then
    (st, .err .maxSessionsExceeded)
  else
    ((st.setex newId session).sadd opts.username newId, .ok session)

/-- Loop body of `SessionService.getUserSessions`: read each indexed id
through `getSession`; a caught error prunes the index entry (`srem`). -/
def getUserSessionsGo (fuel : Nat) (username : String) (now : Int) :
    List String → Store → List SessionData → Store × Res (List SessionData)
  | [], st, acc => (st, .ok acc.reverse)
  | sessionId :: rest, st, acc =>
    match getSessionF fuel st sessionId now with
    | (st1, .ok s) => getUserSessionsGo fuel username now rest st1 (s :: acc)
    | (st1, .err _) =>
        getUserSessionsGo fuel username now rest (st1.srem username sessionId) acc
    | (st1, .outOfFuel) => (st1, .outOfFuel)

/-- `SessionService.getUserSessions` (the spec's `listByOwner`). -/
def getUserSessionsF (fuel : Nat) (st : Store) (username : String) (now : Int) :
    Store × Res (List SessionData) :=
  getUserSessionsGo fuel username now (st.smembers username) st []

/-! ## Resilient call gateway (`services/n8nService.ts`) -/

/-- The fixed endpoint enumeration `N8nWebhookEndpoint` (`types/n8n.ts`). -/
inductive N8nWebhookEndpoint
  | login
  | loginStatus
  | addItems
  | setAddress
  | checkout
  | orderStatus
  | cancelOrder
deriving DecidableEq, Repr

/-- The endpoint's string value, used in error messages and webhook paths. -/
def endpointName : N8nWebhookEndpoint → String
  | .login => "ubereats-login"
  | .loginStatus => "ubereats-login-status"
  | .addItems => "ubereats-add-items"
  | .setAddress => "ubereats-set-address"
  | .checkout => "ubereats-checkout"
  | .orderStatus => "ubereats-order-status"
  | .cancelOrder => "ubereats-cancel-order"

/-- Per-endpoint circuit-breaker state (`CircuitBreakerState`). -/
structure CBState where
  isOpen : Bool
  failures : Nat
  lastFailureTime : Option Int
  nextRetryTime : Option Int
deriving DecidableEq, Repr

/-- The state each breaker starts in (`{ isOpen: false, failures: 0 }`). -/
def initialCBState : CBState :=
  { isOpen := false, failures := 0, lastFailureTime := none, nextRetryTime := none }

/-- `private readonly maxFailures = 5` — the consecutive-failure threshold. -/
def maxFailures : Nat := 5

/-- `private readonly resetTimeout = 60000` — the cooldown in milliseconds. -/
def resetTimeout : Int := 60000

/-- `N8nService.isCircuitOpen`, which also performs the lazy optimistic reset:
while open, if `nextRetryTime` has been reached the state is reset to
closed/zero and the call is allowed.  Returns the (possibly reset) state and
whether the breaker blocks the call. -/
def isCircuitOpen (cb : CBState) (now : Int) : CBState × Bool :=
  if cb.isOpen = false then (cb, false)
  else
    match cb.nextRetryTime with
    | some t => if t ≤ now then (initialCBState, false) else (cb, true)
    | none => (cb, true)

/-- `N8nService.recordFailure`: increment the counter, stamp the failure time,
and when the counter reaches `maxFailures` flip to open with a cooldown
deadline `now + resetTimeout`. -/
def recordFailure (cb : CBState) (now : Int) : CBState :=
  let f := cb.failures + 1
  if maxFailures ≤ f then
    { isOpen := true, failures := f, lastFailureTime := some now,
      nextRetryTime := some (now + resetTimeout) }
  else
    { cb with failures := f, lastFailureTime := some now }

/-- `N8nService.recordSuccess`: reset the failure counter (only when it was
positive; `isOpen`/`nextRetryTime` are not touched here). -/
def recordSuccess (cb : CBState) : CBState :=
  if 0 < cb.failures then { cb with failures := 0, lastFailureTime := none }
  else cb

/-- A JS primitive value, for the places where the source uses strict
equality `===` across possibly differently-typed fields. -/
inductive JsVal
  | str (s : String)
  | num (n : Int)
  | undef
deriving DecidableEq, Repr

/-- JS strict equality `===`: values of different types never compare equal. -/
def jsStrictEq : JsVal → JsVal → Bool
  | .str a, .str b => a = b
  | .num a, .num b => a = b
  | .undef, .undef => true
  | _, _ => false

/-- The fields of an `AxiosError` the gateway inspects: `error.code` (e.g.
`'ECONNABORTED'` on timeout) and `error.response?.status` (the numeric HTTP
status when a response was received; also exposed as `error.status`). -/
structure AxiosErrorData where
  code : Option String
  respStatus : Option Int
deriving DecidableEq, Repr

/-- The `details` payload carried by an `ExternalServiceError`: either the
original `AxiosError` object, or the `{ status, data }` object built from an
upstream HTTP error response. -/
inductive ErrDetails
  | axios (e : AxiosErrorData)
  | statusData (status : Int)
deriving DecidableEq, Repr

/-- `details?.status` as a JS value: on an `AxiosError` it is the numeric
`error.status` (undefined when no response arrived); on a
`{ status, data }` payload it is the numeric upstream HTTP status. -/
def detailsStatus : ErrDetails → JsVal
  | .axios e =>
      match e.respStatus with
      | some n => .num n
      | none => .undef
  | .statusData n => .num n

/-- Typed errors thrown by the call gateway. -/
inductive CallErr
  | circuitBreaker (service : String)
  | externalService (service : String) (details : ErrDetails)
  | unknown
deriving DecidableEq, Repr

/-- `N8nWebhookResponse.status` values (`types/n8n.ts`). -/
inductive N8nStatus
  | success
  | error
  | manualLoginStarted
  | loginIncomplete
deriving DecidableEq, Repr

/-- The parts of `N8nWebhookResponse` the core inspects or stores. -/
structure N8nResponse where
  status : N8nStatus
  message : Option String
  cookies : Option ObjMap
  tokens : Option ObjMap
  sessionStorage : Option ObjMap
  localStorage : Option ObjMap
  storageState : Option String
deriving DecidableEq, Repr

/-- What the HTTP round trip did: resolved with a body, rejected with an
`AxiosError`, or rejected with some other exception. -/
inductive CallOutcome
  | resp (r : N8nResponse)
  | axiosErr (e : AxiosErrorData)
  | otherErr
deriving DecidableEq, Repr

/-- Whether the outcome counts as a call failure (any rejection). -/
def isFailure : CallOutcome → Bool
  | .resp _ => false
  | .axiosErr _ => true
  | .otherErr => true

/-- `error.code === 'ECONNABORTED' || error.code === 'ETIMEDOUT'` -/
def isTimeoutCode (c : Option String) : Bool :=
  c = some "ECONNABORTED" ∨ c = some "ETIMEDOUT"

/-- `N8nService.callWebhook`: fail fast with `CircuitBreakerError` while the
breaker blocks (no network attempt), otherwise attempt the call, record
success/failure on the breaker, and translate rejections into
`ExternalServiceError`s.  The returned `Bool` is whether the network call was
attempted. -/
def callWebhook (endpoint : N8nWebhookEndpoint) (cb : CBState) (now : Int)
    (outcome : CallOutcome) : CBState × Bool × Except CallErr N8nResponse :=
  match isCircuitOpen cb now with
  | (cb1, true) =>
      (cb1, false, .error (.circuitBreaker ("n8n " ++ endpointName endpoint)))
  | (cb1, false) =>
    match outcome with
    | .resp r => (recordSuccess cb1, true, .ok r)
    | .axiosErr e =>
        let cb2 := recordFailure cb1 now
        if isTimeoutCode e.code then
          (cb2, true, .error (.externalService "n8n timeout" (.axios e)))
        else
          match e.respStatus with
          | some status =>
              (cb2, true, .error (.externalService ("n8n " ++ endpointName endpoint)
                (.statusData status)))
          | none =>
              (cb2, true, .error (.externalService "n8n connection failed" (.axios e)))
    | .otherErr => (recordFailure cb1 now, true, .error .unknown)

/-- The canned `manual_login_started` response `N8nService.login` builds for
an expected manual-login timeout. -/
def manualLoginStartedResponse : N8nResponse :=
  { status := .manualLoginStarted,
    message := some "Manual login process started. Complete login in browser.",
    cookies := none, tokens := none, sessionStorage := none, localStorage := none,
    storageState := none }

/-- The guard of the special manual-login-timeout handling in
`N8nService.login`:
`manualMode && error instanceof ExternalServiceError && error.details?.status === 'ECONNABORTED'`. -/
def manualTimeoutGuard (manualMode : Bool) (e : CallErr) : Bool :=
  manualMode &&
    match e with
    | .externalService _ d => jsStrictEq (detailsStatus d) (.str "ECONNABORTED")
    | _ => false

/-- `N8nService.login`: call the login webhook; when the guard above fires,
swallow the error and return the canned `manual_login_started` response. -/
def loginCall (cb : CBState) (now : Int) (manualMode : Bool) (outcome : CallOutcome) :
    CBState × Except CallErr N8nResponse :=
  match callWebhook .login cb now outcome with
  | (cb1, _, .ok r) => (cb1, .ok r)
  | (cb1, _, .error e) =>
      if manualTimeoutGuard manualMode e then (cb1, .ok manualLoginStartedResponse)
      else (cb1, .error e)

/-- Fold a sequence of timed call outcomes through `callWebhook`, keeping the
breaker state (the per-endpoint state the service map holds for `endpoint`). -/
def runCalls (endpoint : N8nWebhookEndpoint) (cb : CBState)
    (calls : List (Int × CallOutcome)) : CBState :=
  calls.foldl (fun c p => (callWebhook endpoint c p.1 p.2).1) cb

/-! ## Operation handlers (`tools/login.ts`, `tools/addItems.ts`,
`tools/setAddress.ts`, `tools/checkout.ts`)

Each handler catches every thrown error and shapes it through `handleError`
into a structured `{status: 'error', code}` outcome, so the models return a
`ToolResult` rather than propagating errors.  The n8n round trip is passed in
as an `Except CallErr N8nResponse` (the verdict of the call gateway). -/

/-- The user-visible outcome of a tool handler. -/
inductive ToolResult
  | ok
  | err (code : String)
  | manualStarted
  | incomplete
deriving DecidableEq, Repr

/-- A handler run: a shaped result, or fuel exhaustion of an inner service
call (marking a non-terminating source execution). -/
inductive HandlerRes
  | result (r : ToolResult)
  | outOfFuel
deriving DecidableEq, Repr

/-- `handleError` code for a thrown session-service error. -/
def errCode : SessionError → String
  | .notFound => "NOT_FOUND"
  | .sessionExpired => "AUTHENTICATION_ERROR"
  | .maxSessionsExceeded => "MAX_SESSIONS_EXCEEDED"

/-- `handleError` code for a thrown call-gateway error. -/
def callErrCode : CallErr → String
  | .circuitBreaker _ => "CIRCUIT_BREAKER_OPEN"
  | .externalService _ _ => "EXTERNAL_SERVICE_ERROR"
  | .unknown => "INTERNAL_ERROR"

/-- The `updateSession` payload both login handlers build from a successful
n8n response: state `ACTIVE`, the four carried maps (defaulted to `{}` with
`||`), `storageState` passed through, `loginCompletedAt = new Date()`. -/
def authUpdates (r : N8nResponse) (now : Int) : SessionUpdateOptions :=
  { status := some .active,
    cookies := some (r.cookies.getD []),
    tokens := some (r.tokens.getD []),
    sessionStorage := some (r.sessionStorage.getD []),
    localStorage := some (r.localStorage.getD []),
    storageState := r.storageState,
    loginCompletedAt := some now }

/-- `loginHandler` (`tools/login.ts`): create the session (state per
`manualMode`), call `n8nService.login`; on `success` persist the auth data
and report success; on `manual_login_started` keep the pending session; on
any other response status, or a thrown call error, delete the just-created
session before surfacing the failure.  `tCreate`/`tResp` are the clock values
at creation and at response handling. -/
def loginHandler (cfg : SessionConfig) (fuel : Nat) (st : Store)
    (username : String) (manualMode : Bool) (newId : String)
    (tCreate tResp : Int) (call : Except CallErr N8nResponse) :
    Store × HandlerRes :=
  match createSession cfg st
      { username := username,
        status := some (if manualMode then .manualLoginPending else .active),
        lifetimeMinutes := none, metadata := none } tCreate newId with
  | (st1, .ok session) =>
    (match call with
     | .ok r =>
       if r.status = .success then
         match updateSessionF fuel st1 session.id (authUpdates r tResp) tResp tResp with
         | (st2, .ok _) => (st2, .result .ok)
         | (st2, .err e) =>
             -- the inner catch deletes the session and rethrows
             (match deleteSessionF fuel st2 session.id tResp with
              | (st3, .ok _) => (st3, .result (.err (errCode e)))
              | (st3, .err e1) => (st3, .result (.err (errCode e1)))
              | (st3, .outOfFuel) => (st3, .outOfFuel))
         | (st2, .outOfFuel) => (st2, .outOfFuel)
       else if r.status = .manualLoginStarted then
         (st1, .result .manualStarted)
       else
         -- login failed: delete the half-created session, report LOGIN_FAILED
         (match deleteSessionF fuel st1 session.id tResp with
          | (st2, .ok _) => (st2, .result (.err "LOGIN_FAILED"))
          | (st2, .err e1) => (st2, .result (.err (errCode e1)))
          | (st2, .outOfFuel) => (st2, .outOfFuel))
     | .error e =>
         -- thrown call error: the inner catch deletes the session and rethrows
         (match deleteSessionF fuel st1 session.id tResp with
          | (st2, .ok _) => (st2, .result (.err (callErrCode e)))
          | (st2, .err e1) => (st2, .result (.err (errCode e1)))
          | (st2, .outOfFuel) => (st2, .outOfFuel)))
  | (st1, .err e) => (st1, .result (.err (errCode e)))
  | (st1, .outOfFuel) => (st1, .outOfFuel)

/-- `completeLoginHandler` (`tools/login.ts`): read the session; short-circuit
when it is already `ACTIVE` with `loginCompletedAt` set; reject states other
than `MANUAL_LOGIN_PENDING`/`ACTIVE`; otherwise poll `checkLoginStatus` and on
`success` persist the auth data, on `login_incomplete` tell the caller to
retry, and on any other status report `LOGIN_COMPLETION_FAILED` — the session
record is left untouched on that failure path. -/
def completeLoginHandler (fuel : Nat) (st : Store) (sessionId : String)
    (now : Int) (call : Except CallErr N8nResponse) : Store × HandlerRes :=
  match getSessionF fuel st sessionId now with
  | (st1, .ok session) =>
    if session.status = .active ∧ session.loginCompletedAt.isSome then
      (st1, .result .ok)
    else if session.status ≠ .manualLoginPending ∧ session.status ≠ .active then
      (st1, .result (.err "INVALID_STATE"))
    else
      (match call with
       | .ok r =>
         if r.status = .success then
           match updateSessionF fuel st1 session.id (authUpdates r now) now now with
           | (st2, .ok _) => (st2, .result .ok)
           | (st2, .err e) => (st2, .result (.err (errCode e)))
           | (st2, .outOfFuel) => (st2, .outOfFuel)
         else if r.status = .loginIncomplete then
           (st1, .result .incomplete)
         else
           (st1, .result (.err "LOGIN_COMPLETION_FAILED"))
       | .error e => (st1, .result (.err (callErrCode e))))
  | (st1, .err e) => (st1, .result (.err (errCode e)))
  | (st1, .outOfFuel) => (st1, .outOfFuel)

/-- `addItemsHandler` (`tools/addItems.ts`): read the session, require state
`ACTIVE`, forward the carried state to the engine, and shape the verdict.
Nothing is written back to the store on success. -/
def addItemsHandler (fuel : Nat) (st : Store) (sessionId : String) (now : Int)
    (call : Except CallErr N8nResponse) : Store × HandlerRes :=
  match getSessionF fuel st sessionId now with
  | (st1, .ok session) =>
    if session.status = .active then
      (match call with
       | .ok r =>
         if r.status = .success then (st1, .result .ok)
         else (st1, .result (.err "ADD_ITEMS_FAILED"))
       | .error e => (st1, .result (.err (callErrCode e))))
    else (st1, .result (.err "AUTHENTICATION_ERROR"))
  | (st1, .err e) => (st1, .result (.err (errCode e)))
  | (st1, .outOfFuel) => (st1, .outOfFuel)

/-- `setAddressHandler` (`tools/setAddress.ts`): same control flow as
`addItemsHandler` with its own failure code.  Nothing is written back to the
store on success. -/
def setAddressHandler (fuel : Nat) (st : Store) (sessionId : String) (now : Int)
    (call : Except CallErr N8nResponse) : Store × HandlerRes :=
  match getSessionF fuel st sessionId now with
  | (st1, .ok session) =>
    if session.status = .active then
      (match call with
       | .ok r =>
         if r.status = .success then (st1, .result .ok)
         else (st1, .result (.err "SET_ADDRESS_FAILED"))
       | .error e => (st1, .result (.err (callErrCode e))))
    else (st1, .result (.err "AUTHENTICATION_ERROR"))
  | (st1, .err e) => (st1, .result (.err (errCode e)))
  | (st1, .outOfFuel) => (st1, .outOfFuel)

/-- `checkoutHandler` (`tools/checkout.ts`): same control flow as
`addItemsHandler` with its own failure code.  Nothing is written back to the
store on success. -/
def checkoutHandler (fuel : Nat) (st : Store) (sessionId : String) (now : Int)
    (call : Except CallErr N8nResponse) : Store × HandlerRes :=
  match getSessionF fuel st sessionId now with
  | (st1, .ok session) =>
    if session.status = .active then
      (match call with
       | .ok r =>
         if r.status = .success then (st1, .result .ok)
         else (st1, .result (.err "CHECKOUT_FAILED"))
       | .error e => (st1, .result (.err (callErrCode e))))
    else (st1, .result (.err "AUTHENTICATION_ERROR"))
  | (st1, .err e) => (st1, .result (.err (errCode e)))
  | (st1, .outOfFuel) => (st1, .outOfFuel)

/-! ## Concrete sample data, used by witnesses and counterexamples -/

/-- A live `ACTIVE` session holding one stored cookie, created at time 0 with
a one-hour deadline. -/
def sampleActiveSession : SessionData :=
  { id := "s1", username := "user@example.com", status := .active,
    createdAt := 0, updatedAt := 0, expiresAt := 3600000,
    loginCompletedAt := some 0,
    cookies := [("b", "2")], tokens := [("accessToken", "tok")],
    sessionStorage := [], localStorage := [],
    storageState := none, metadata := none }

/-- A session whose `expiresAt` (1000) is already in the past at the
observation times the theorems use. -/
def sampleExpiredSession : SessionData :=
  { sampleActiveSession with id := "s2", expiresAt := 1000 }

/-- A `MANUAL_LOGIN_PENDING` session awaiting confirmation. -/
def samplePendingSession : SessionData :=
  { sampleActiveSession with
    id := "p1"
    status := .manualLoginPending
    loginCompletedAt := none }

/-- Store holding the live session, the expired session and the pending
session, all indexed under their owner. -/
def sampleStore : Store :=
  { records := [("s1", sampleActiveSession), ("s2", sampleExpiredSession),
                ("p1", samplePendingSession)],
    userIndex := [("user@example.com", ["s1", "s2", "p1"])] }

/-- A successful n8n response carrying one cookie. -/
def sampleSuccessResponse : N8nResponse :=
  { status := .success, message := none, cookies := some [("a", "1")],
    tokens := none, sessionStorage := none, localStorage := none,
    storageState := none }

/-- An n8n response reporting failure. -/
def sampleErrorResponse : N8nResponse :=
  { status := .error, message := some "Login failed", cookies := none,
    tokens := none, sessionStorage := none, localStorage := none,
    storageState := none }

/-- The `AxiosError` produced by a request timeout: `code = 'ECONNABORTED'`,
no HTTP response. -/
def timeoutAxiosError : AxiosErrorData :=
  { code := some "ECONNABORTED", respStatus := none }

/-- The default session configuration (60-minute lifetime, 100 sessions). -/
def defaultConfig : SessionConfig :=
  { lifetimeMinutes := 60, maxSessions := 100 }

/-- Five consecutive failed calls (the breaker threshold) at times 0..4. -/
def demoCalls : List (Int × CallOutcome) :=
  [(0, .otherErr), (1, .otherErr), (2, .otherErr), (3, .otherErr), (4, .otherErr)]

/-- An update payload supplying one cookie and nothing else. -/
def demoUpdate : SessionUpdateOptions :=
  { status := none, cookies := some [("a", "1")], tokens := none,
    sessionStorage := none, localStorage := none, storageState := none,
    loginCompletedAt := none }

/-! ## Basic lemmas about maps and the store -/

/-- Folding the `objGet` step over a map from any accumulator: a binding in
the map wins, otherwise the accumulator survives. -/
theorem objGet_foldl (k : String) (m : ObjMap) :
    ∀ acc : Option String,
      m.foldl (fun acc kv => if kv.1 = k then some kv.2 else acc) acc
        = Option.or (objGet m k) acc := by
  induction m with
  | nil => intro acc; simp [objGet]
  | cons kv m ih =>
    intro acc
    show m.foldl _ (if kv.1 = k then some kv.2 else acc) = _
    rw [ih]
    have hm : objGet (kv :: m) k
        = Option.or (objGet m k) (if kv.1 = k then some kv.2 else none) := by
      show m.foldl _ (if kv.1 = k then some kv.2 else none) = _
      rw [ih]
    rw [hm]
    cases objGet m k with
    | some v => rfl
    | none =>
      by_cases h : kv.1 = k
      · simp [h]
      · simp [h]

/-- Lookup in a JS spread `{...a, ...b}`: a key supplied by `b` overwrites,
a key not mentioned in `b` keeps the binding from `a`. -/
theorem objGet_append (a b : ObjMap) (k : String) :
    objGet (a ++ b) k = Option.or (objGet b k) (objGet a k) := by
  show (a ++ b).foldl _ none = _
  rw [List.foldl_append]
  show b.foldl _ (objGet a k) = _
  rw [objGet_foldl]

theorem assocGet_eraseKey_self {α : Type} (l : List (String × α)) (k : String) :
    assocGet (eraseKey l k) k = none := by
  induction l with
  | nil => rfl
  | cons kv rest ih =>
    show assocGet (if kv.1 = k then _ else _) k = none
    by_cases h : kv.1 = k
    · rw [if_pos h]; exact ih
    · rw [if_neg h]
      show (if kv.1 = k then some kv.2 else assocGet (eraseKey rest k) k) = none
      rw [if_neg h]; exact ih

theorem eraseKey_of_assocGet_none {α : Type} (l : List (String × α)) (k : String)
    (h : assocGet l k = none) : eraseKey l k = l := by
  induction l with
  | nil => rfl
  | cons kv rest ih =>
    have hh : (if kv.1 = k then some kv.2 else assocGet rest k) = none := h
    by_cases hk : kv.1 = k
    · rw [if_pos hk] at hh; exact absurd hh (by simp)
    · rw [if_neg hk] at hh
      show (if kv.1 = k then _ else _) = _
      rw [if_neg hk, ih hh]

theorem eraseKey_length_le {α : Type} (l : List (String × α)) (k : String) :
    (eraseKey l k).length ≤ l.length := by
  induction l with
  | nil => exact Nat.le_refl 0
  | cons kv rest ih =>
    show (if kv.1 = k then _ else _ : List (String × α)).length ≤ rest.length + 1
    by_cases h : kv.1 = k
    · rw [if_pos h]; exact Nat.le_succ_of_le ih
    · rw [if_neg h]; exact Nat.succ_le_succ ih

theorem Store.srem_records (st : Store) (username sessionId : String) :
    (st.srem username sessionId).records = st.records := by
  unfold Store.srem
  cases assocGet st.userIndex username with
  | some ids => dsimp only; split <;> rfl
  | none => rfl

theorem Store.sadd_records (st : Store) (username sessionId : String) :
    (st.sadd username sessionId).records = st.records := by
  unfold Store.sadd
  cases assocGet st.userIndex username with
  | some ids => dsimp only; split <;> rfl
  | none => rfl

theorem Store.getR_srem (st : Store) (username sessionId x : String) :
    (st.srem username sessionId).getR x = st.getR x := by
  show assocGet (st.srem username sessionId).records x = _
  rw [Store.srem_records]; rfl

theorem Store.getR_sadd (st : Store) (username sessionId x : String) :
    (st.sadd username sessionId).getR x = st.getR x := by
  show assocGet (st.sadd username sessionId).records x = _
  rw [Store.sadd_records]; rfl

theorem Store.getR_setex_self (st : Store) (sessionId : String) (s : SessionData) :
    (st.setex sessionId s).getR sessionId = some s := by
  show (if sessionId = sessionId then some s else _) = some s
  rw [if_pos rfl]

theorem Store.getR_del_self (st : Store) (sessionId : String) :
    (st.del sessionId).getR sessionId = none :=
  assocGet_eraseKey_self st.records sessionId

theorem eraseKey_cons_self {α : Type} (l : List (String × α)) (k : String)
    (v : α) : eraseKey ((k, v) :: l) k = eraseKey l k := by
  show (if k = k then eraseKey l k else (k, v) :: eraseKey l k) = eraseKey l k
  rw [if_pos rfl]

/-- Unfolding `createSession` through its local `let`. -/
theorem createSession_eq (cfg : SessionConfig) (st : Store)
    (opts : SessionCreateOptions) (now : Int) (newId : String) :
    createSession cfg st opts now newId
      = if cfg.maxSessions ≤ st.getActiveSessionCount
          then (st, .err .maxSessionsExceeded)
          else ((st.setex newId (newSessionRecord cfg opts now newId)).sadd
                  opts.username newId,
                .ok (newSessionRecord cfg opts now newId)) := rfl

theorem newSessionRecord_id (cfg : SessionConfig) (opts : SessionCreateOptions)
    (now : Int) (newId : String) :
    (newSessionRecord cfg opts now newId).id = newId := rfl

theorem newSessionRecord_expiresAt (cfg : SessionConfig)
    (opts : SessionCreateOptions) (now : Int) (newId : String) :
    (newSessionRecord cfg opts now newId).expiresAt
      = now + lifetimeOf opts cfg * 60000 := rfl

theorem lifetimeOf_none (opts : SessionCreateOptions) (cfg : SessionConfig)
    (h : opts.lifetimeMinutes = none) : lifetimeOf opts cfg = cfg.lifetimeMinutes := by
  unfold lifetimeOf
  rw [h]

/-- Deleting a key that was fresh before a `setex` restores the records. -/
theorem del_setex_records (st : Store) (S : SessionData) (newId : String)
    (hfresh : st.getR newId = none) :
    ((st.setex newId S).del newId).records = st.records := by
  show eraseKey ((newId, S) :: eraseKey st.records newId) newId = st.records
  rw [eraseKey_cons_self,
    eraseKey_of_assocGet_none _ _ (assocGet_eraseKey_self st.records newId)]
  exact eraseKey_of_assocGet_none st.records newId hfresh

/-- A create (setex + sadd) followed by a delete (del + srem) of a fresh id
leaves the records exactly as they were. -/
theorem records_after_create_delete (st : Store) (S : SessionData)
    (newId u1 u2 : String) (hfresh : st.getR newId = none) :
    ((((st.setex newId S).sadd u1 newId).del newId).srem u2 newId).records
      = st.records := by
  rw [Store.srem_records]
  show eraseKey ((st.setex newId S).sadd u1 newId).records newId = st.records
  rw [Store.sadd_records]
  exact del_setex_records st S newId hfresh

/-! ## The `getSession`/`deleteSession` mutual recursion -/

/-- On a record that is still stored but past its `expiresAt`, `getSession`
and `deleteSession` call each other forever: `getSession` tries to delete the
expired record, `deleteSession` re-reads it through `getSession`, which tries
to delete it again.  Whatever the fuel, both run out of it with the store
untouched: the source never terminates here, never deletes the record and
never raises its `Session expired` error. -/
theorem expired_record_diverges (fuel : Nat) :
    ∀ (st : Store) (sessionId : String) (now : Int) (s : SessionData),
      st.getR sessionId = some s → s.expiresAt < now →
      getSessionF fuel st sessionId now = (st, .outOfFuel) ∧
      deleteSessionF fuel st sessionId now = (st, .outOfFuel) := by
  induction fuel with
  | zero => intro st sessionId now s _ _; exact ⟨rfl, rfl⟩
  | succ n ih =>
    intro st sessionId now s hs hexp
    have hg : getSessionF n st sessionId now = (st, .outOfFuel) :=
      (ih st sessionId now s hs hexp).1
    have hd : deleteSessionF n st sessionId now = (st, .outOfFuel) :=
      (ih st sessionId now s hs hexp).2
    constructor
    · show (match st.getR sessionId with
        | none => (st, Res.err .notFound)
        | some session =>
          if session.expiresAt < now then
            match deleteSessionF n st sessionId now with
            | (st1, .ok _) => (st1, Res.err .sessionExpired)
            | (st1, .err e) => (st1, Res.err e)
            | (st1, .outOfFuel) => (st1, Res.outOfFuel)
          else (st, Res.ok session)) = (st, Res.outOfFuel)
      rw [hs]
      dsimp only
      rw [if_pos hexp, hd]
    · show (match getSessionF n st sessionId now with
        | (st1, .ok session) =>
            (((st1.del sessionId).srem session.username sessionId), Res.ok ())
        | (st1, .err .notFound) => (st1, Res.ok ())
        | (st1, .err e) => (st1, Res.err e)
        | (st1, .outOfFuel) => (st1, Res.outOfFuel)) = (st, Res.outOfFuel)
      rw [hg]

/-- `getSession` never changes the store: the only store mutation on its code
path is the expired-record delete, and that call never returns. -/
theorem getSessionF_fst (fuel : Nat) (st : Store) (sessionId : String) (now : Int) :
    (getSessionF fuel st sessionId now).1 = st := by
  cases fuel with
  | zero => rfl
  | succ n =>
    show (match st.getR sessionId with
      | none => (st, Res.err .notFound)
      | some session =>
        if session.expiresAt < now then
          match deleteSessionF n st sessionId now with
          | (st1, .ok _) => (st1, Res.err .sessionExpired)
          | (st1, .err e) => (st1, Res.err e)
          | (st1, .outOfFuel) => (st1, Res.outOfFuel)
        else (st, Res.ok session)).1 = st
    cases hget : st.getR sessionId with
    | none => rfl
    | some s =>
      dsimp only
      by_cases hexp : s.expiresAt < now
      · rw [if_pos hexp, (expired_record_diverges n st sessionId now s hget hexp).2]
      · rw [if_neg hexp]

/-- Reading a stored, unexpired record succeeds and leaves the store alone. -/
theorem getSessionF_live (fuel : Nat) (st : Store) (sessionId : String) (now : Int)
    (s : SessionData) (hs : st.getR sessionId = some s)
    (hlive : ¬ s.expiresAt < now) :
    getSessionF (fuel + 1) st sessionId now = (st, .ok s) := by
  show (match st.getR sessionId with
    | none => (st, Res.err .notFound)
    | some session =>
      if session.expiresAt < now then
        match deleteSessionF fuel st sessionId now with
        | (st1, .ok _) => (st1, Res.err .sessionExpired)
        | (st1, .err e) => (st1, Res.err e)
        | (st1, .outOfFuel) => (st1, Res.outOfFuel)
      else (st, Res.ok session)) = (st, Res.ok s)
  rw [hs]
  dsimp only
  rw [if_neg hlive]

/-- Reading an absent key fails with `NotFoundError` and leaves the store. -/
theorem getSessionF_absent (fuel : Nat) (st : Store) (sessionId : String) (now : Int)
    (h : st.getR sessionId = none) :
    getSessionF (fuel + 1) st sessionId now = (st, .err .notFound) := by
  show (match st.getR sessionId with
    | none => (st, Res.err .notFound)
    | some session => _) = (st, Res.err .notFound)
  rw [h]

/-- Deleting an absent record is a swallowed `NotFoundError`: no error, no
store change. -/
theorem deleteSessionF_absent (fuel : Nat) (st : Store) (sessionId : String)
    (now : Int) (h : st.getR sessionId = none) :
    deleteSessionF (fuel + 2) st sessionId now = (st, .ok ()) := by
  show (match getSessionF (fuel + 1) st sessionId now with
    | (st1, .ok session) =>
        (((st1.del sessionId).srem session.username sessionId), Res.ok ())
    | (st1, .err .notFound) => (st1, Res.ok ())
    | (st1, .err e) => (st1, Res.err e)
    | (st1, .outOfFuel) => (st1, Res.outOfFuel)) = (st, Res.ok ())
  rw [getSessionF_absent fuel st sessionId now h]

/-- Deleting a stored, unexpired record removes it and prunes the owner
index. -/
theorem deleteSessionF_live (fuel : Nat) (st : Store) (sessionId : String)
    (now : Int) (s : SessionData) (hs : st.getR sessionId = some s)
    (hlive : ¬ s.expiresAt < now) :
    deleteSessionF (fuel + 2) st sessionId now
      = ((st.del sessionId).srem s.username sessionId, .ok ()) := by
  show (match getSessionF (fuel + 1) st sessionId now with
    | (st1, .ok session) =>
        (((st1.del sessionId).srem session.username sessionId), Res.ok ())
    | (st1, .err .notFound) => (st1, Res.ok ())
    | (st1, .err e) => (st1, Res.err e)
    | (st1, .outOfFuel) => (st1, Res.outOfFuel))
      = ((st.del sessionId).srem s.username sessionId, Res.ok ())
  rw [getSessionF_live fuel st sessionId now s hs hlive]

/-- `applyUpdates` never touches the deadline. -/
theorem applyUpdates_expiresAt (s : SessionData) (u : SessionUpdateOptions)
    (now : Int) : (applyUpdates s u now).expiresAt = s.expiresAt := rfl

/-- `applyUpdates` stamps `updatedAt` with the write-time clock. -/
theorem applyUpdates_updatedAt (s : SessionData) (u : SessionUpdateOptions)
    (now : Int) : (applyUpdates s u now).updatedAt = now := rfl

/-- Full characterization of `updateSession` on a live record: it returns the
merged session, and persists it exactly when the recomputed remaining TTL
`Math.floor((expiresAt - now) / 1000)` is positive. -/
theorem updateSessionF_live (fuel : Nat) (st : Store) (sessionId : String)
    (u : SessionUpdateOptions) (tRead tWrite : Int) (s : SessionData)
    (hs : st.getR sessionId = some s) (hlive : ¬ s.expiresAt < tRead) :
    updateSessionF (fuel + 1) st sessionId u tRead tWrite
      = (if 0 < Int.fdiv (s.expiresAt - tWrite) 1000
           then st.setex sessionId (applyUpdates s u tWrite)
           else st,
         .ok (applyUpdates s u tWrite)) := by
  unfold updateSessionF
  rw [getSessionF_live fuel st sessionId tRead s hs hlive]
  dsimp only
  rw [applyUpdates_expiresAt]
  by_cases h : 0 < Int.fdiv (s.expiresAt - tWrite) 1000
  · rw [if_pos h, if_pos h]
  · rw [if_neg h, if_neg h]

/-- One step of the `getUserSessions` loop. -/
theorem getUserSessionsGo_cons (fuel : Nat) (username : String) (now : Int)
    (i : String) (rest : List String) (st : Store) (acc : List SessionData) :
    getUserSessionsGo fuel username now (i :: rest) st acc
      = match getSessionF fuel st i now with
        | (st1, .ok s1) => getUserSessionsGo fuel username now rest st1 (s1 :: acc)
        | (st1, .err _) =>
            getUserSessionsGo fuel username now rest (st1.srem username i) acc
        | (st1, .outOfFuel) => (st1, .outOfFuel) := rfl

/-- If any id in the worklist points at a stored-but-expired record, the
`getUserSessions` loop reaches it (intervening steps only prune the index,
never the records) and then hangs in the `getSession` recursion. -/
theorem getUserSessionsGo_diverges (fuel : Nat) (username : String) (now : Int) :
    ∀ (ids : List String) (st : Store) (acc : List SessionData)
      (sessionId : String) (s : SessionData),
      sessionId ∈ ids → st.getR sessionId = some s → s.expiresAt < now →
      (getUserSessionsGo fuel username now ids st acc).2 = .outOfFuel := by
  intro ids
  induction ids with
  | nil =>
    intro st acc sessionId s hmem _ _
    exact absurd hmem (List.not_mem_nil sessionId)
  | cons i rest ih =>
    intro st acc sessionId s hmem hs hexp
    rw [getUserSessionsGo_cons]
    rcases List.mem_cons.mp hmem with heq | hmemr
    · subst heq
      rw [(expired_record_diverges fuel st sessionId now s hs hexp).1]
    · cases hg : getSessionF fuel st i now with
      | mk st1 res =>
        have hst1 : st1 = st := by
          have h := getSessionF_fst fuel st i now
          rw [hg] at h
          exact h
        cases res with
        | ok s1 =>
          rw [hst1]
          exact ih st (s1 :: acc) sessionId s hmemr hs hexp
        | err e =>
          rw [hst1]
          refine ih (st.srem username i) acc sessionId s hmemr ?_ hexp
          rw [Store.getR_srem]
          exact hs
        | outOfFuel => rfl

/-! ## Circuit-breaker lemmas -/

theorem isCircuitOpen_closed (cb : CBState) (now : Int) (hcl : cb.isOpen = false) :
    isCircuitOpen cb now = (cb, false) := by
  unfold isCircuitOpen
  rw [if_pos hcl]

theorem isCircuitOpen_blocked (cb : CBState) (now d : Int)
    (hopen : cb.isOpen = true) (hnrt : cb.nextRetryTime = some d)
    (hwait : ¬ d ≤ now) : isCircuitOpen cb now = (cb, true) := by
  unfold isCircuitOpen
  rw [if_neg (by rw [hopen]; exact fun h => Bool.noConfusion h), hnrt]
  dsimp only
  rw [if_neg hwait]

theorem isCircuitOpen_reset (cb : CBState) (now d : Int)
    (hopen : cb.isOpen = true) (hnrt : cb.nextRetryTime = some d)
    (hpassed : d ≤ now) : isCircuitOpen cb now = (initialCBState, false) := by
  unfold isCircuitOpen
  rw [if_neg (by rw [hopen]; exact fun h => Bool.noConfusion h), hnrt]
  dsimp only
  rw [if_pos hpassed]

theorem callWebhook_blocked (endpoint : N8nWebhookEndpoint) (cb : CBState)
    (now : Int) (o : CallOutcome) (h : isCircuitOpen cb now = (cb, true)) :
    callWebhook endpoint cb now o
      = (cb, false, .error (.circuitBreaker ("n8n " ++ endpointName endpoint))) := by
  unfold callWebhook
  rw [h]

theorem callWebhook_of_isCircuitOpen_eq (endpoint : N8nWebhookEndpoint)
    (cb cb1 : CBState) (now : Int) (o : CallOutcome)
    (h : isCircuitOpen cb now = isCircuitOpen cb1 now) :
    callWebhook endpoint cb now o = callWebhook endpoint cb1 now o := by
  unfold callWebhook
  rw [h]

theorem callWebhook_closed_resp (endpoint : N8nWebhookEndpoint) (cb : CBState)
    (now : Int) (r : N8nResponse) (hcl : cb.isOpen = false) :
    callWebhook endpoint cb now (.resp r) = (recordSuccess cb, true, .ok r) := by
  unfold callWebhook
  rw [isCircuitOpen_closed cb now hcl]

theorem callWebhook_closed_axios (endpoint : N8nWebhookEndpoint) (cb : CBState)
    (now : Int) (e : AxiosErrorData) (hcl : cb.isOpen = false) :
    callWebhook endpoint cb now (.axiosErr e)
      = (recordFailure cb now, true,
         .error (if isTimeoutCode e.code
           then .externalService "n8n timeout" (.axios e)
           else match e.respStatus with
             | some status =>
                 .externalService ("n8n " ++ endpointName endpoint) (.statusData status)
             | none => .externalService "n8n connection failed" (.axios e))) := by
  unfold callWebhook
  rw [isCircuitOpen_closed cb now hcl]
  dsimp only
  by_cases ht : isTimeoutCode e.code = true
  · rw [if_pos ht, if_pos ht]
  · rw [if_neg ht, if_neg ht]
    cases e.respStatus <;> rfl

theorem callWebhook_closed_other (endpoint : N8nWebhookEndpoint) (cb : CBState)
    (now : Int) (hcl : cb.isOpen = false) :
    callWebhook endpoint cb now .otherErr
      = (recordFailure cb now, true, .error .unknown) := by
  unfold callWebhook
  rw [isCircuitOpen_closed cb now hcl]

theorem callWebhook_closed_attempted (endpoint : N8nWebhookEndpoint)
    (cb : CBState) (now : Int) (o : CallOutcome) (hcl : cb.isOpen = false) :
    (callWebhook endpoint cb now o).2.1 = true := by
  cases o with
  | resp r => rw [callWebhook_closed_resp endpoint cb now r hcl]
  | axiosErr e => rw [callWebhook_closed_axios endpoint cb now e hcl]
  | otherErr => rw [callWebhook_closed_other endpoint cb now hcl]

theorem callWebhook_closed_failure_state (endpoint : N8nWebhookEndpoint)
    (cb : CBState) (now : Int) (o : CallOutcome) (hcl : cb.isOpen = false)
    (hf : isFailure o = true) :
    (callWebhook endpoint cb now o).1 = recordFailure cb now := by
  cases o with
  | resp r => exact absurd hf (by simp [isFailure])
  | axiosErr e => rw [callWebhook_closed_axios endpoint cb now e hcl]
  | otherErr => rw [callWebhook_closed_other endpoint cb now hcl]

theorem recordFailure_failures (cb : CBState) (now : Int) :
    (recordFailure cb now).failures = cb.failures + 1 := by
  unfold recordFailure
  dsimp only
  split <;> rfl

theorem recordFailure_opens (cb : CBState) (now : Int)
    (h : maxFailures ≤ cb.failures + 1) :
    recordFailure cb now
      = { isOpen := true, failures := cb.failures + 1,
          lastFailureTime := some now,
          nextRetryTime := some (now + resetTimeout) } := by
  unfold recordFailure
  dsimp only
  rw [if_pos h]

theorem recordFailure_below (cb : CBState) (now : Int)
    (h : ¬ maxFailures ≤ cb.failures + 1) :
    recordFailure cb now
      = { cb with failures := cb.failures + 1, lastFailureTime := some now } := by
  unfold recordFailure
  dsimp only
  rw [if_neg h]

theorem runCalls_nil (endpoint : N8nWebhookEndpoint) (cb : CBState) :
    runCalls endpoint cb [] = cb := rfl

theorem runCalls_cons (endpoint : N8nWebhookEndpoint) (cb : CBState)
    (t : Int) (o : CallOutcome) (rest : List (Int × CallOutcome)) :
    runCalls endpoint cb ((t, o) :: rest)
      = runCalls endpoint (callWebhook endpoint cb t o).1 rest := rfl

/-- Running a batch of consecutive failures that exactly exhausts the
threshold from a closed breaker ends with the breaker open, the counter at
the threshold, and the cooldown deadline recorded from the last failure. -/
theorem runCalls_failures_open (endpoint : N8nWebhookEndpoint) :
    ∀ (calls : List (Int × CallOutcome)) (cb : CBState) (tL : Int)
      (oL : CallOutcome),
      cb.isOpen = false →
      (∀ p ∈ calls, isFailure p.2 = true) →
      cb.failures + calls.length = maxFailures →
      calls.getLast? = some (tL, oL) →
      runCalls endpoint cb calls
        = { isOpen := true, failures := maxFailures,
            lastFailureTime := some tL,
            nextRetryTime := some (tL + resetTimeout) } := by
  intro calls
  induction calls with
  | nil =>
    intro cb tL oL _ _ _ hlast
    exact absurd hlast (by simp)
  | cons p rest ih =>
    intro cb tL oL hcl hfail hlen hlast
    obtain ⟨t, o⟩ := p
    have hof : isFailure o = true := hfail (t, o) (List.mem_cons_self _ _)
    rw [runCalls_cons,
      callWebhook_closed_failure_state endpoint cb t o hcl hof]
    cases rest with
    | nil =>
      have hto : t = tL ∧ o = oL := by simpa using hlast
      obtain ⟨ht, _⟩ := hto
      have hlen1 : cb.failures + 1 = maxFailures := hlen
      rw [runCalls_nil, recordFailure_opens cb t (Nat.le_of_eq hlen1.symm),
        hlen1, ht]
    | cons q rest1 =>
      have hlast1 : (q :: rest1).getLast? = some (tL, oL) := by
        rw [List.getLast?_cons_cons] at hlast
        exact hlast
      have hsmall : ¬ maxFailures ≤ cb.failures + 1 := by
        have h1 : cb.failures + ((q :: rest1).length + 1) = maxFailures := hlen
        have h2 : 1 ≤ (q :: rest1).length := by
          simp [List.length_cons]
        omega
      rw [recordFailure_below cb t hsmall]
      refine ih _ tL oL hcl (fun p hp => hfail p (List.mem_cons_of_mem _ hp)) ?_ hlast1
      have h1 : cb.failures + ((q :: rest1).length + 1) = maxFailures := hlen
      show cb.failures + 1 + (q :: rest1).length = maxFailures
      omega

/-! ## Claims -/

/-- C1: `get(id)` with nothing stored under `id` fails with `NotFound`; but
on a record that is stored with `expiresAt` in the past, the source does not
"delete the record and fail with `Expired`" — `getSession` and
`deleteSession` recurse into each other forever (for every fuel the run is
unfinished and the store, including the stale record, is unchanged), so the
delete never happens and the `Expired` error is never raised.  The stale
payload is, at least, never returned. -/
theorem getSession_notFound_and_expired_diverges (fuel : Nat) (st : Store)
    (sessionId : String) (now : Int) :
    (st.getR sessionId = none →
       getSessionF (fuel + 1) st sessionId now = (st, .err .notFound)) ∧
    (∀ s : SessionData, st.getR sessionId = some s → s.expiresAt < now →
       getSessionF fuel st sessionId now = (st, .outOfFuel)) :=
  ⟨getSessionF_absent fuel st sessionId now,
   fun s hs hexp => (expired_record_diverges fuel st sessionId now s hs hexp).1⟩

/-- Witness for the C1 theorem at the sample store: the id `missing` is
absent, and `s2` is stored with `expiresAt = 1000` while the clock reads
2000000. -/
theorem getSession_notFound_and_expired_diverges_witness :
    getSessionF 50 sampleStore "missing" 2000000
      = (sampleStore, .err .notFound) ∧
    getSessionF 49 sampleStore "s2" 2000000 = (sampleStore, .outOfFuel) :=
  ⟨(getSession_notFound_and_expired_diverges 49 sampleStore "missing" 2000000).1
      (by decide),
   (getSession_notFound_and_expired_diverges 49 sampleStore "s2" 2000000).2
      sampleExpiredSession (by decide) (by decide)⟩

/-- C6: `listByOwner` prunes index entries whose record is missing, but when
an index entry points at a record that is stored and expired, the lookup
reaches that entry with the records untouched and then hangs in the
`getSession`/`deleteSession` recursion: for every fuel it returns nothing, so
the self-healing prune of expired entries and the list of live sessions are
never produced. -/
theorem listByOwner_expired_entry_diverges (fuel : Nat) (st : Store)
    (username : String) (now : Int) (sessionId : String) (s : SessionData)
    (hmem : sessionId ∈ st.smembers username)
    (hs : st.getR sessionId = some s) (hexp : s.expiresAt < now) :
    (getUserSessionsF fuel st username now).2 = .outOfFuel :=
  getUserSessionsGo_diverges fuel username now (st.smembers username) st []
    sessionId s hmem hs hexp

/-- Witness for the C6 theorem: the sample owner index lists `s2`, whose
record is stored with `expiresAt = 1000`, read at time 2000000. -/
theorem listByOwner_expired_entry_diverges_witness :
    (getUserSessionsF 50 sampleStore "user@example.com" 2000000).2 = .outOfFuel :=
  listByOwner_expired_entry_diverges 50 sampleStore "user@example.com" 2000000
    "s2" sampleExpiredSession (by decide) (by decide) (by decide)

/-- C7: `delete(id)` completes without error and without store change when
the record is absent; on a live record it removes the record and prunes the
owner index, and running it a second time is a no-op (idempotence); but on a
record that is stored with `expiresAt` in the past, `deleteSession` re-reads
through `getSession`, which calls `deleteSession` again — the run never
finishes and the record is not removed, for every fuel. -/
theorem deleteSession_idempotent_and_expired_diverges (fuel : Nat) (st : Store)
    (sessionId : String) (now : Int) :
    (st.getR sessionId = none →
       deleteSessionF (fuel + 2) st sessionId now = (st, .ok ())) ∧
    (∀ s : SessionData, st.getR sessionId = some s → ¬ s.expiresAt < now →
       deleteSessionF (fuel + 2) st sessionId now
         = ((st.del sessionId).srem s.username sessionId, .ok ())) ∧
    (∀ s : SessionData, st.getR sessionId = some s → ¬ s.expiresAt < now →
       deleteSessionF (fuel + 2) ((st.del sessionId).srem s.username sessionId)
           sessionId now
         = ((st.del sessionId).srem s.username sessionId, .ok ())) ∧
    (∀ s : SessionData, st.getR sessionId = some s → s.expiresAt < now →
       deleteSessionF fuel st sessionId now = (st, .outOfFuel)) :=
  ⟨fun h => deleteSessionF_absent fuel st sessionId now h,
   fun s hs hl => deleteSessionF_live fuel st sessionId now s hs hl,
   fun s _ _ =>
     deleteSessionF_absent fuel ((st.del sessionId).srem s.username sessionId)
       sessionId now
       (by rw [Store.getR_srem]; exact Store.getR_del_self st sessionId),
   fun s hs hexp => (expired_record_diverges fuel st sessionId now s hs hexp).2⟩

/-- Witness for the C7 theorem at the sample store: deleting the absent id
`missing` succeeds without change, deleting the live `s1` removes it and
prunes the index, and deleting the stored-but-expired `s2` runs out of any
fuel. -/
theorem deleteSession_idempotent_and_expired_diverges_witness :
    deleteSessionF 10 sampleStore "missing" 2000000 = (sampleStore, .ok ()) ∧
    deleteSessionF 10 sampleStore "s1" 2000000
      = ((sampleStore.del "s1").srem sampleActiveSession.username "s1", .ok ()) ∧
    deleteSessionF 8 sampleStore "s2" 2000000 = (sampleStore, .outOfFuel) :=
  ⟨(deleteSession_idempotent_and_expired_diverges 8 sampleStore "missing"
      2000000).1 (by decide),
   (deleteSession_idempotent_and_expired_diverges 8 sampleStore "s1" 2000000).2.1
      sampleActiveSession (by decide) (by decide),
   (deleteSession_idempotent_and_expired_diverges 8 sampleStore "s2"
      2000000).2.2.2 sampleExpiredSession (by decide) (by decide)⟩

/-- C2: on a live stored session, `update` returns the merged session; the
`status` field is replaced wholesale when supplied; each of the four carried
maps is merged key-by-key (a key supplied in the partial overwrites, a stored
key not mentioned is preserved), and a map not supplied at all is untouched;
`expiresAt` is never advanced or reset; and when the remaining time-to-live
at write time is ≤ 0 the store is left exactly as it was (nothing is
persisted). -/
theorem updateSession_merge_spec (fuel : Nat) (st : Store) (sessionId : String)
    (u : SessionUpdateOptions) (tRead tWrite : Int) (s : SessionData)
    (hs : st.getR sessionId = some s) (hlive : ¬ s.expiresAt < tRead) :
    (updateSessionF (fuel + 1) st sessionId u tRead tWrite).2
        = .ok (applyUpdates s u tWrite) ∧
    (applyUpdates s u tWrite).status = u.status.getD s.status ∧
    (∀ c k, u.cookies = some c →
       objGet (applyUpdates s u tWrite).cookies k
         = Option.or (objGet c k) (objGet s.cookies k)) ∧
    (u.cookies = none → (applyUpdates s u tWrite).cookies = s.cookies) ∧
    (∀ c k, u.tokens = some c →
       objGet (applyUpdates s u tWrite).tokens k
         = Option.or (objGet c k) (objGet s.tokens k)) ∧
    (u.tokens = none → (applyUpdates s u tWrite).tokens = s.tokens) ∧
    (∀ c k, u.sessionStorage = some c →
       objGet (applyUpdates s u tWrite).sessionStorage k
         = Option.or (objGet c k) (objGet s.sessionStorage k)) ∧
    (u.sessionStorage = none →
       (applyUpdates s u tWrite).sessionStorage = s.sessionStorage) ∧
    (∀ c k, u.localStorage = some c →
       objGet (applyUpdates s u tWrite).localStorage k
         = Option.or (objGet c k) (objGet s.localStorage k)) ∧
    (u.localStorage = none →
       (applyUpdates s u tWrite).localStorage = s.localStorage) ∧
    (applyUpdates s u tWrite).expiresAt = s.expiresAt ∧
    (s.expiresAt - tWrite ≤ 0 →
       (updateSessionF (fuel + 1) st sessionId u tRead tWrite).1 = st) := by
  have h := updateSessionF_live fuel st sessionId u tRead tWrite s hs hlive
  refine ⟨by rw [h], rfl, ?_, ?_, ?_, ?_, ?_, ?_, ?_, ?_,
    applyUpdates_expiresAt s u tWrite, ?_⟩
  · intro c k hc
    have hcook : (applyUpdates s u tWrite).cookies = s.cookies ++ c := by
      show (match u.cookies with
        | some c => s.cookies ++ c
        | none => s.cookies) = s.cookies ++ c
      rw [hc]
    rw [hcook, objGet_append]
  · intro hc
    show (match u.cookies with
      | some c => s.cookies ++ c
      | none => s.cookies) = s.cookies
    rw [hc]
  · intro c k hc
    have htok : (applyUpdates s u tWrite).tokens = s.tokens ++ c := by
      show (match u.tokens with
        | some c => s.tokens ++ c
        | none => s.tokens) = s.tokens ++ c
      rw [hc]
    rw [htok, objGet_append]
  · intro hc
    show (match u.tokens with
      | some c => s.tokens ++ c
      | none => s.tokens) = s.tokens
    rw [hc]
  · intro c k hc
    have hss : (applyUpdates s u tWrite).sessionStorage = s.sessionStorage ++ c := by
      show (match u.sessionStorage with
        | some c => s.sessionStorage ++ c
        | none => s.sessionStorage) = s.sessionStorage ++ c
      rw [hc]
    rw [hss, objGet_append]
  · intro hc
    show (match u.sessionStorage with
      | some c => s.sessionStorage ++ c
      | none => s.sessionStorage) = s.sessionStorage
    rw [hc]
  · intro c k hc
    have hls : (applyUpdates s u tWrite).localStorage = s.localStorage ++ c := by
      show (match u.localStorage with
        | some c => s.localStorage ++ c
        | none => s.localStorage) = s.localStorage ++ c
      rw [hc]
    rw [hls, objGet_append]
  · intro hc
    show (match u.localStorage with
      | some c => s.localStorage ++ c
      | none => s.localStorage) = s.localStorage
    rw [hc]
  · intro hle
    have hfd : Int.fdiv (s.expiresAt - tWrite) 1000 ≤ 0 := by
      rw [Int.fdiv_eq_ediv _ (by norm_num : (0 : Int) ≤ 1000)]
      omega
    rw [h, if_neg (Int.not_lt.mpr hfd)]

/-- Witness for the C2 theorem: merging `demoUpdate` (cookie `a`) onto the
live sample session keeps cookie `b`, adds cookie `a`, keeps `expiresAt`, and
a write at the very deadline (remaining TTL 0) leaves the store unchanged. -/
theorem updateSession_merge_spec_witness :
    (updateSessionF 3 sampleStore "s1" demoUpdate 10 20).2
        = .ok (applyUpdates sampleActiveSession demoUpdate 20) ∧
    objGet (applyUpdates sampleActiveSession demoUpdate 20).cookies "a"
        = some "1" ∧
    objGet (applyUpdates sampleActiveSession demoUpdate 20).cookies "b"
        = some "2" ∧
    (applyUpdates sampleActiveSession demoUpdate 20).expiresAt
        = sampleActiveSession.expiresAt ∧
    (updateSessionF 3 sampleStore "s1" demoUpdate 10 3600000).1 = sampleStore := by
  obtain ⟨h1, _, hc, _, _, _, _, _, _, _, hexp, _⟩ :=
    updateSession_merge_spec 2 sampleStore "s1" demoUpdate 10 20
      sampleActiveSession (by decide) (by decide)
  obtain ⟨_, _, _, _, _, _, _, _, _, _, _, hstore⟩ :=
    updateSession_merge_spec 2 sampleStore "s1" demoUpdate 10 3600000
      sampleActiveSession (by decide) (by decide)
  refine ⟨h1, ?_, ?_, hexp, hstore (by decide)⟩
  · rw [hc [("a", "1")] "a" rfl]; decide
  · rw [hc [("a", "1")] "b" rfl]; decide

/-- C10: when `update` runs on a session that was live at read time but whose
remaining time-to-live is ≤ 0 at write time, no error is signalled: the call
returns the merged session object with `updatedAt` refreshed, while the store
is left exactly as it was. -/
theorem updateSession_expired_write_noop (fuel : Nat) (st : Store)
    (sessionId : String) (u : SessionUpdateOptions) (tRead tWrite : Int)
    (s : SessionData) (hs : st.getR sessionId = some s)
    (hlive : ¬ s.expiresAt < tRead) (hpast : s.expiresAt ≤ tWrite) :
    updateSessionF (fuel + 1) st sessionId u tRead tWrite
        = (st, .ok (applyUpdates s u tWrite)) ∧
    (applyUpdates s u tWrite).updatedAt = tWrite := by
  have h := updateSessionF_live fuel st sessionId u tRead tWrite s hs hlive
  have hfd : Int.fdiv (s.expiresAt - tWrite) 1000 ≤ 0 := by
    rw [Int.fdiv_eq_ediv _ (by norm_num : (0 : Int) ≤ 1000)]
    omega
  constructor
  · rw [h, if_neg (Int.not_lt.mpr hfd)]
  · exact applyUpdates_updatedAt s u tWrite

/-- Witness for the C10 theorem: updating the sample session read just before
its deadline and written exactly at the deadline returns the merged object
with `updatedAt = 3600000` and leaves the store untouched. -/
theorem updateSession_expired_write_noop_witness :
    updateSessionF 3 sampleStore "s1" demoUpdate 3599999 3600000
        = (sampleStore, .ok (applyUpdates sampleActiveSession demoUpdate 3600000)) ∧
    (applyUpdates sampleActiveSession demoUpdate 3600000).updatedAt = 3600000 :=
  updateSession_expired_write_noop 2 sampleStore "s1" demoUpdate 3599999 3600000
    sampleActiveSession (by decide) (by decide) (by decide)

/-- C4: `create` attempted when the stored-session count has reached the
configured ceiling is rejected with the capacity error and leaves the store
exactly as it was (no new record, nothing queued); while the count is below
the ceiling, `create` stores the new record (readable under the fresh id) and
registers it in the owner index; and the count never exceeds the ceiling
across a `create`. -/
theorem createSession_capacity_spec (cfg : SessionConfig) (st : Store)
    (opts : SessionCreateOptions) (now : Int) (newId : String) :
    (cfg.maxSessions ≤ st.getActiveSessionCount →
       createSession cfg st opts now newId = (st, .err .maxSessionsExceeded)) ∧
    (st.getActiveSessionCount < cfg.maxSessions →
       createSession cfg st opts now newId
           = ((st.setex newId (newSessionRecord cfg opts now newId)).sadd
                opts.username newId,
              .ok (newSessionRecord cfg opts now newId)) ∧
       (createSession cfg st opts now newId).1.getR newId
           = some (newSessionRecord cfg opts now newId)) ∧
    (st.getActiveSessionCount ≤ cfg.maxSessions →
       (createSession cfg st opts now newId).1.getActiveSessionCount
         ≤ cfg.maxSessions) := by
  refine ⟨?_, ?_, ?_⟩
  · intro h
    rw [createSession_eq, if_pos h]
  · intro h
    have he : createSession cfg st opts now newId
        = ((st.setex newId (newSessionRecord cfg opts now newId)).sadd
             opts.username newId,
           .ok (newSessionRecord cfg opts now newId)) := by
      rw [createSession_eq, if_neg (Nat.not_le.mpr h)]
    refine ⟨he, ?_⟩
    rw [he]
    show ((st.setex newId (newSessionRecord cfg opts now newId)).sadd
        opts.username newId).getR newId = _
    rw [Store.getR_sadd, Store.getR_setex_self]
  · intro h
    by_cases hc : cfg.maxSessions ≤ st.getActiveSessionCount
    · rw [createSession_eq, if_pos hc]
      exact h
    · rw [createSession_eq, if_neg hc]
      have hlt : st.getActiveSessionCount < cfg.maxSessions := Nat.not_le.mp hc
      show ((st.setex newId (newSessionRecord cfg opts now newId)).sadd
          opts.username newId).records.length ≤ cfg.maxSessions
      rw [Store.sadd_records]
      show ((newId, newSessionRecord cfg opts now newId)
          :: eraseKey st.records newId).length ≤ cfg.maxSessions
      have h1 : (eraseKey st.records newId).length ≤ st.records.length :=
        eraseKey_length_le st.records newId
      have h2 : st.records.length < cfg.maxSessions := hlt
      simp only [List.length_cons]
      omega

/-- Witness for the C4 theorem with a two-session ceiling: the sample store
already holds three records, so creation is rejected without change; with the
default 100-session ceiling the creation succeeds and the record is
readable. -/
theorem createSession_capacity_spec_witness :
    createSession { lifetimeMinutes := 60, maxSessions := 2 } sampleStore
        { username := "user@example.com", status := none,
          lifetimeMinutes := none, metadata := none } 0 "n1"
      = (sampleStore, .err .maxSessionsExceeded) ∧
    (createSession defaultConfig sampleStore
        { username := "user@example.com", status := none,
          lifetimeMinutes := none, metadata := none } 0 "n1").1.getR "n1"
      = some (newSessionRecord defaultConfig
          { username := "user@example.com", status := none,
            lifetimeMinutes := none, metadata := none } 0 "n1") ∧
    (createSession defaultConfig sampleStore
        { username := "user@example.com", status := none,
          lifetimeMinutes := none, metadata := none }
        0 "n1").1.getActiveSessionCount ≤ defaultConfig.maxSessions :=
  ⟨(createSession_capacity_spec { lifetimeMinutes := 60, maxSessions := 2 }
      sampleStore
      { username := "user@example.com", status := none,
        lifetimeMinutes := none, metadata := none } 0 "n1").1 (by decide),
   ((createSession_capacity_spec defaultConfig sampleStore
      { username := "user@example.com", status := none,
        lifetimeMinutes := none, metadata := none } 0 "n1").2.1 (by decide)).2,
   (createSession_capacity_spec defaultConfig sampleStore
      { username := "user@example.com", status := none,
        lifetimeMinutes := none, metadata := none } 0 "n1").2.2 (by decide)⟩

/-- C3: for every endpoint of the fixed set, a run of exactly `maxFailures`
consecutive call failures starting from the closed/zero breaker state leaves
the breaker open with the cooldown deadline recorded from the last failure;
the next call before that deadline fails fast with `CircuitBreakerError`
naming the endpoint, without a network attempt (the outcome parameter is
ignored and the attempted flag is `false`) and without touching the state;
and a call at or after the deadline resets the breaker to closed with a zero
failure counter and proceeds exactly as a call on a fresh breaker, attempting
the network. -/
theorem circuitBreaker_threshold_cooldown (endpoint : N8nWebhookEndpoint)
    (calls : List (Int × CallOutcome)) (tL : Int) (oL : CallOutcome)
    (hfail : ∀ p ∈ calls, isFailure p.2 = true)
    (hlen : calls.length = maxFailures)
    (hlast : calls.getLast? = some (tL, oL)) :
    runCalls endpoint initialCBState calls
      = { isOpen := true, failures := maxFailures, lastFailureTime := some tL,
          nextRetryTime := some (tL + resetTimeout) } ∧
    (∀ (now : Int) (o : CallOutcome), now < tL + resetTimeout →
       callWebhook endpoint (runCalls endpoint initialCBState calls) now o
         = (runCalls endpoint initialCBState calls, false,
            .error (.circuitBreaker ("n8n " ++ endpointName endpoint)))) ∧
    (∀ (now : Int) (o : CallOutcome), tL + resetTimeout ≤ now →
       isCircuitOpen (runCalls endpoint initialCBState calls) now
           = (initialCBState, false) ∧
       callWebhook endpoint (runCalls endpoint initialCBState calls) now o
           = callWebhook endpoint initialCBState now o ∧
       (callWebhook endpoint (runCalls endpoint initialCBState calls) now o).2.1
           = true) := by
  have hrun := runCalls_failures_open endpoint calls initialCBState tL oL rfl
    hfail (by show 0 + calls.length = maxFailures; omega) hlast
  refine ⟨hrun, ?_, ?_⟩
  · intro now o hlt
    rw [hrun]
    exact callWebhook_blocked endpoint _ now o
      (isCircuitOpen_blocked _ now (tL + resetTimeout) rfl rfl
        (Int.not_le.mpr hlt))
  · intro now o hge
    rw [hrun]
    have hreset := isCircuitOpen_reset
      { isOpen := true, failures := maxFailures, lastFailureTime := some tL,
        nextRetryTime := some (tL + resetTimeout) }
      now (tL + resetTimeout) rfl rfl hge
    have heq : isCircuitOpen
        { isOpen := true, failures := maxFailures, lastFailureTime := some tL,
          nextRetryTime := some (tL + resetTimeout) } now
        = isCircuitOpen initialCBState now := by
      rw [hreset, isCircuitOpen_closed initialCBState now rfl]
    refine ⟨hreset, callWebhook_of_isCircuitOpen_eq endpoint _ _ now o heq, ?_⟩
    rw [callWebhook_of_isCircuitOpen_eq endpoint _ _ now o heq]
    exact callWebhook_closed_attempted endpoint initialCBState now o rfl

/-- Witness for the C3 theorem: five failures at times 0..4 on the add-items
endpoint open its breaker with deadline 60004; a call at time 1000 fails fast
regardless of its would-be network outcome; the breaker resets at 70000. -/
theorem circuitBreaker_threshold_cooldown_witness :
    runCalls .addItems initialCBState demoCalls
      = { isOpen := true, failures := maxFailures, lastFailureTime := some 4,
          nextRetryTime := some (4 + resetTimeout) } ∧
    callWebhook .addItems (runCalls .addItems initialCBState demoCalls) 1000
        (.resp sampleSuccessResponse)
      = (runCalls .addItems initialCBState demoCalls, false,
         .error (.circuitBreaker ("n8n " ++ endpointName .addItems))) ∧
    isCircuitOpen (runCalls .addItems initialCBState demoCalls) 70000
      = (initialCBState, false) := by
  obtain ⟨h1, h2, h3⟩ := circuitBreaker_threshold_cooldown .addItems demoCalls
    4 .otherErr (by decide) (by decide) (by decide)
  exact ⟨h1, h2 1000 (.resp sampleSuccessResponse) (by decide),
    (h3 70000 (.resp sampleSuccessResponse) (by decide)).1⟩

/-- C5: a manual-login call that times out is counted as a failure on the
login endpoint's breaker (the counter increments), but contrary to the claim
it is not converted into the `manual_login_started` outcome: the recovery
guard compares `error.details?.status` — which on the original `AxiosError`
is the numeric HTTP status, absent for a timeout — against the string
`'ECONNABORTED'` (which actually lives in `error.code`), a strict-equality
test that is false for every possible `details` payload, so the caller gets
the hard `ExternalServiceError('n8n timeout')`. -/
theorem manualLogin_timeout_hard_error (cb : CBState) (now : Int)
    (e : AxiosErrorData) (hclosed : cb.isOpen = false)
    (hcode : e.code = some "ECONNABORTED") (_hnoresp : e.respStatus = none) :
    loginCall cb now true (.axiosErr e)
        = (recordFailure cb now,
           .error (.externalService "n8n timeout" (.axios e))) ∧
    (recordFailure cb now).failures = cb.failures + 1 ∧
    (∀ d : ErrDetails,
       jsStrictEq (detailsStatus d) (.str "ECONNABORTED") = false) := by
  have hdet : ∀ d : ErrDetails,
      jsStrictEq (detailsStatus d) (.str "ECONNABORTED") = false := by
    intro d
    cases d with
    | axios e1 =>
      cases h : e1.respStatus with
      | some n => simp [detailsStatus, h, jsStrictEq]
      | none => simp [detailsStatus, h, jsStrictEq]
    | statusData n => simp [detailsStatus, jsStrictEq]
  refine ⟨?_, recordFailure_failures cb now, hdet⟩
  have ht : isTimeoutCode e.code = true := by
    rw [hcode]
    decide
  unfold loginCall
  rw [callWebhook_closed_axios .login cb now e hclosed, if_pos ht]
  dsimp only
  have hguard : manualTimeoutGuard true
      (.externalService "n8n timeout" (.axios e)) = false := by
    show (true && jsStrictEq (detailsStatus (.axios e)) (.str "ECONNABORTED"))
        = false
    rw [hdet (.axios e)]
    rfl
  rw [if_neg (by rw [hguard]; exact Bool.false_ne_true)]

/-- Witness for the C5 theorem: the canonical timeout `AxiosError` on a
fresh breaker yields the hard external-service error with the failure
counted. -/
theorem manualLogin_timeout_hard_error_witness :
    loginCall initialCBState 0 true (.axiosErr timeoutAxiosError)
        = (recordFailure initialCBState 0,
           .error (.externalService "n8n timeout" (.axios timeoutAxiosError))) ∧
    (recordFailure initialCBState 0).failures = initialCBState.failures + 1 := by
  obtain ⟨h1, h2, _⟩ := manualLogin_timeout_hard_error initialCBState 0
    timeoutAxiosError (by decide) (by decide) (by decide)
  exact ⟨h1, h2⟩

/-- C8 counterexample: a failed login confirmation does not delete the
session.  On the sample store, `completeLogin` for the pending session `p1`
with an error response from the engine reports `LOGIN_COMPLETION_FAILED` and
leaves the record in the store, contradicting "the half-created session is
deleted before the failure is surfaced, in every session state". -/
theorem completeLogin_failed_confirmation_keeps_record :
    completeLoginHandler 5 sampleStore "p1" 2000000 (.ok sampleErrorResponse)
      = (sampleStore, .result (.err "LOGIN_COMPLETION_FAILED")) ∧
    (completeLoginHandler 5 sampleStore "p1" 2000000
        (.ok sampleErrorResponse)).1.getR "p1" = some samplePendingSession := by
  decide

/-- C8 (amended): a failed initial login after session creation — an
engine response that is neither `success` nor `manual_login_started`, or a
thrown call error — deletes the half-created session before the failure is
surfaced, leaving the records exactly as before the call; but a failed login
confirmation does not delete: `completeLogin` surfaces
`LOGIN_COMPLETION_FAILED` with the store untouched. -/
theorem login_failure_cleanup_amended (cfg : SessionConfig) (fuel : Nat)
    (st : Store) (username newId : String) (manualMode : Bool)
    (tCreate tResp : Int)
    (hcap : st.getActiveSessionCount < cfg.maxSessions)
    (hfresh : st.getR newId = none)
    (hlive : ¬ tCreate + cfg.lifetimeMinutes * 60000 < tResp) :
    (∀ r : N8nResponse, r.status ≠ .success → r.status ≠ .manualLoginStarted →
       (loginHandler cfg (fuel + 2) st username manualMode newId tCreate tResp
          (.ok r)).1.records = st.records ∧
       (loginHandler cfg (fuel + 2) st username manualMode newId tCreate tResp
          (.ok r)).2 = .result (.err "LOGIN_FAILED")) ∧
    (∀ e : CallErr,
       (loginHandler cfg (fuel + 2) st username manualMode newId tCreate tResp
          (.error e)).1.records = st.records ∧
       (loginHandler cfg (fuel + 2) st username manualMode newId tCreate tResp
          (.error e)).2 = .result (.err (callErrCode e))) ∧
    (∀ (sessionId : String) (s : SessionData) (r : N8nResponse),
       st.getR sessionId = some s → ¬ s.expiresAt < tResp →
       s.status = .manualLoginPending → r.status = .error →
       completeLoginHandler (fuel + 1) st sessionId tResp (.ok r)
         = (st, .result (.err "LOGIN_COMPLETION_FAILED"))) := by
  have hS : ∀ opts : SessionCreateOptions, opts.lifetimeMinutes = none →
      ¬ (newSessionRecord cfg opts tCreate newId).expiresAt < tResp := by
    intro opts hnone
    rw [newSessionRecord_expiresAt, lifetimeOf_none opts cfg hnone]
    exact hlive
  refine ⟨?_, ?_, ?_⟩
  · intro r h1 h2
    unfold loginHandler
    rw [createSession_eq, if_neg (Nat.not_le.mpr hcap)]
    dsimp only
    rw [if_neg h1, if_neg h2, newSessionRecord_id]
    rw [deleteSessionF_live fuel _ newId tResp _
      (by rw [Store.getR_sadd, Store.getR_setex_self]) (hS _ rfl)]
    exact ⟨records_after_create_delete st _ newId _ _ hfresh, rfl⟩
  · intro e
    unfold loginHandler
    rw [createSession_eq, if_neg (Nat.not_le.mpr hcap)]
    dsimp only
    rw [newSessionRecord_id]
    rw [deleteSessionF_live fuel _ newId tResp _
      (by rw [Store.getR_sadd, Store.getR_setex_self]) (hS _ rfl)]
    exact ⟨records_after_create_delete st _ newId _ _ hfresh, rfl⟩
  · intro sessionId s r hs hlv hpend hre
    unfold completeLoginHandler
    rw [getSessionF_live fuel st sessionId tResp s hs hlv]
    dsimp only
    have hc1 : ¬ (s.status = SessionStatus.active ∧ s.loginCompletedAt.isSome) := by
      intro h
      rw [hpend] at h
      exact absurd h.1 (by decide)
    have hc2 : ¬ (s.status ≠ SessionStatus.manualLoginPending
        ∧ s.status ≠ SessionStatus.active) :=
      fun h => h.1 hpend
    rw [if_neg hc1, if_neg hc2]
    have hr1 : ¬ r.status = N8nStatus.success := by
      rw [hre]
      decide
    have hr2 : ¬ r.status = N8nStatus.loginIncomplete := by
      rw [hre]
      decide
    rw [if_neg hr1, if_neg hr2]

/-- Witness for the amended C8 theorem: a failed automatic login on the
sample store leaves the records as they were with `LOGIN_FAILED`, and a
failed confirmation of the pending session `p1` keeps it stored. -/
theorem login_failure_cleanup_amended_witness :
    (loginHandler defaultConfig 5 sampleStore "user@example.com" false "n1" 0
        1000 (.ok sampleErrorResponse)).1.records = sampleStore.records ∧
    (loginHandler defaultConfig 5 sampleStore "user@example.com" false "n1" 0
        1000 (.ok sampleErrorResponse)).2 = .result (.err "LOGIN_FAILED") ∧
    completeLoginHandler 4 sampleStore "p1" 1000 (.ok sampleErrorResponse)
      = (sampleStore, .result (.err "LOGIN_COMPLETION_FAILED")) := by
  obtain ⟨ha, _, hc⟩ := login_failure_cleanup_amended defaultConfig 3
    sampleStore "user@example.com" "n1" false 0 1000 (by decide) (by decide)
    (by decide)
  obtain ⟨ha1, ha2⟩ := ha sampleErrorResponse (by decide) (by decide)
  exact ⟨ha1, ha2,
    hc "p1" samplePendingSession sampleErrorResponse (by decide) (by decide)
      (by decide) (by decide)⟩

/-- C9 counterexample: after a successful add-items call the handler reports
success but the store is exactly the pre-call store — the cookie `a` returned
by the engine is nowhere in the stored record, so no "updated carried state"
was persisted before returning success. -/
theorem addItems_success_not_persisted :
    addItemsHandler 5 sampleStore "s1" 2000000 (.ok sampleSuccessResponse)
      = (sampleStore, .result .ok) ∧
    sampleSuccessResponse.cookies = some [("a", "1")] ∧
    (addItemsHandler 5 sampleStore "s1" 2000000
        (.ok sampleSuccessResponse)).1.getR "s1" = some sampleActiveSession ∧
    objGet sampleActiveSession.cookies "a" = none := by
  decide

/-- C9 (amended): on a live `ACTIVE` session, a cart/address/checkout call
that the engine answers with success returns the success outcome with the
session store completely unchanged: these handlers forward the carried state
to the engine but never persist anything back (only the login handlers write
carried state through `updateSession`). -/
theorem cart_handlers_do_not_persist (fuel : Nat) (st : Store)
    (sessionId : String) (now : Int) (r : N8nResponse) (s : SessionData)
    (hs : st.getR sessionId = some s) (hlive : ¬ s.expiresAt < now)
    (hactive : s.status = .active) (hsucc : r.status = .success) :
    addItemsHandler (fuel + 1) st sessionId now (.ok r)
        = (st, .result .ok) ∧
    setAddressHandler (fuel + 1) st sessionId now (.ok r)
        = (st, .result .ok) ∧
    checkoutHandler (fuel + 1) st sessionId now (.ok r)
        = (st, .result .ok) := by
  refine ⟨?_, ?_, ?_⟩
  · unfold addItemsHandler
    rw [getSessionF_live fuel st sessionId now s hs hlive]
    dsimp only
    rw [if_pos hactive]
    rw [if_pos hsucc]
  · unfold setAddressHandler
    rw [getSessionF_live fuel st sessionId now s hs hlive]
    dsimp only
    rw [if_pos hactive]
    rw [if_pos hsucc]
  · unfold checkoutHandler
    rw [getSessionF_live fuel st sessionId now s hs hlive]
    dsimp only
    rw [if_pos hactive]
    rw [if_pos hsucc]

/-- Witness for the amended C9 theorem on the sample store and the sample
successful response. -/
theorem cart_handlers_do_not_persist_witness :
    addItemsHandler 5 sampleStore "s1" 2000000 (.ok sampleSuccessResponse)
        = (sampleStore, .result .ok) ∧
    setAddressHandler 5 sampleStore "s1" 2000000 (.ok sampleSuccessResponse)
        = (sampleStore, .result .ok) ∧
    checkoutHandler 5 sampleStore "s1" 2000000 (.ok sampleSuccessResponse)
        = (sampleStore, .result .ok) :=
  cart_handlers_do_not_persist 4 sampleStore "s1" 2000000
    sampleSuccessResponse sampleActiveSession (by decide) (by decide)
    (by decide) (by decide)

end UberEatsMcp
